import Mathlib

set_option maxRecDepth 4000

/-!
Shallow embedding of the DDL-processing core of the database-structure-comparer
repository: `get-current-schema.py` (the type mapper, the quote/paren-aware SQL
definition splitter, the `CREATE TABLE` parsers) and
`generate-schema-updates.py` (type normalization and the schema differ).

Python strings are modelled as `String`/`List Char`, Python dicts as
insertion-ordered association lists (assignment replaces in place, new keys
append at the end), and each regular expression of the source is modelled by a
dedicated total parsing function implementing that concrete pattern's
semantics, including greediness.  `sqlparse.split` is an external library call:
the statement-list producer is modelled by letting `parse_structure` take the
already-split statement list.  File and database I/O of the scripts is plumbing
outside the core and is not modelled.
-/

/-- The backtick character. -/
def btChar : Char := '`'

/-- The single-quote character. -/
def sqChar : Char := '\''

/-- The double-quote character. -/
def dqChar : Char := '"'

/-- Python `str.lower()` (ASCII-faithful model). -/
def strLower (s : String) : String := String.mk (s.data.map Char.toLower)

/-- Python `str.upper()` (ASCII-faithful model). -/
def strUpper (s : String) : String := String.mk (s.data.map Char.toUpper)

/-- Trim whitespace from both ends of a character list, as Python `str.strip()`. -/
def trimListWS (l : List Char) : List Char :=
  ((l.dropWhile Char.isWhitespace).reverse.dropWhile Char.isWhitespace).reverse

/-- Python `str.strip()`. -/
def strTrim (s : String) : String := String.mk (trimListWS s.data)

/-- Python `str.rstrip(",")`: remove all trailing commas. -/
def rstripCommas (s : String) : String :=
  String.mk ((s.data.reverse.dropWhile (fun c => c = ',')).reverse)

/-- Python `str.strip(chars)`: remove characters of `cs` from both ends. -/
def stripCharsL (l : List Char) (cs : List Char) : List Char :=
  ((l.dropWhile (fun c => decide (c ∈ cs))).reverse.dropWhile
      (fun c => decide (c ∈ cs))).reverse

/-- Substring test on character lists, as Python `sub in s`. -/
def listHasInfix : List Char → List Char → Bool
  | [], sub => sub.isEmpty
  | c :: t, sub => sub.isPrefixOf (c :: t) || listHasInfix t sub

/-- Python `sub in s` for strings. -/
def strContains (s sub : String) : Bool := listHasInfix s.data sub.data

/-- Python `s.startswith(tuple(ps))`. -/
def startsWithAny (s : String) (ps : List String) : Bool :=
  ps.any (fun p => p.data.isPrefixOf s.data)

/-- Python `s.endswith(suf)`. -/
def strEndsWith (s suf : String) : Bool :=
  suf.data.reverse.isPrefixOf s.data.reverse

/-- Python `sep.join(parts)`. -/
def joinSep (sep : String) : List String → String
  | [] => ""
  | [x] => x
  | x :: y :: rest => x ++ sep ++ joinSep sep (y :: rest)

/-- Split a character list on a separator character, as Python `str.split(sep)`. -/
def splitOnCharL (l : List Char) (sep : Char) : List (List Char) :=
  l.foldr
    (fun c acc =>
      match acc with
      | [] => [[c]]
      | cur :: done => if c = sep then [] :: cur :: done else (c :: cur) :: done)
    [[]]

/-- Decimal digits to a natural number, as Python `int` on a digit string. -/
def digitsToNat (l : List Char) : Nat :=
  l.foldl (fun n c => n * 10 + (c.toNat - 48)) 0

/-- Word character of the regex class `\w` (ASCII-faithful model). -/
def isWordChar (c : Char) : Bool := c.isAlphanum || c = '_'

/-- Case-insensitive literal-prefix consumption used when modelling `re.I` patterns:
returns the remainder after the pattern word, or `none`. -/
def dropPrefixCI : List Char → List Char → Option (List Char)
  | [], l => some l
  | _ :: _, [] => none
  | p :: ps, c :: cs => if p.toLower = c.toLower then dropPrefixCI ps cs else none

/-!  ## get-current-schema.py  -/

/-- The `TYPE_MAP` table (get-current-schema.py, lines 31-41). -/
def TYPE_MAP : List (String × String) :=
  [("varchar", "STRING"), ("char", "STRING"), ("int", "INTEGER"),
   ("bigint", "INTEGER"), ("datetime", "DATETIME"), ("timestamp", "DATETIME"),
   ("text", "STRING"), ("tinyint", "INTEGER"), ("boolean", "BOOLEAN")]

/-- Python `TYPE_MAP.get(base, "STRING")`. -/
def typeMapGet (base : String) : String :=
  ((TYPE_MAP.find? (fun p => decide (p.1 = base))).map Prod.snd).getD "STRING"

/-- One column's canonical shape: the JSON object written per column.  Optional
fields are `none` when the Python dict lacks the key. -/
structure ColSpec where
  type : String
  length : Option Nat := none
  acceptNULL : Option Bool := none
  required : Option Bool := none
  primary : Option Bool := none
deriving DecidableEq

/-- Model of `re.match(r"(\w+)(?:\((\d+)\))?", sql_type)` (anchored search):
the maximal word-character prefix, and the parenthesized digit group when it
matches right after the base. -/
def reMatchType (l : List Char) : Option (List Char × Option Nat) :=
  let base := l.takeWhile isWordChar
  if base.isEmpty then none
  else
    match l.dropWhile isWordChar with
    | '(' :: r2 =>
      let ds := r2.takeWhile Char.isDigit
      if ds.isEmpty then some (base, none)
      else
        match r2.dropWhile Char.isDigit with
        | ')' :: _ => some (base, some (digitsToNat ds))
        | _ => some (base, none)
    | _ => some (base, none)

/-- `map_sql_type` (get-current-schema.py, lines 44-53): forward type mapping. -/
def map_sql_type (sql_type : String) : ColSpec :=
  match reMatchType sql_type.data with
  | none => { type := "STRING" }
  | some (base, len) => { type := typeMapGet (strLower (String.mk base)), length := len }

/-- The character-by-character state machine of `split_sql_definitions`
(get-current-schema.py, lines 58-100).  `buffer` is kept reversed; `q` is
`some qc` exactly when `in_quotes` holds with `quote_char = qc`.  The fuel is
structural bookkeeping only: every step consumes at least one character, so
starting the fuel at the input length makes the zero-fuel case unreachable. -/
def split_sql_definitions_go : Nat → List Char → List Char → Int → Option Char → List String
  | _, [], buffer, _, _ =>
    let b := strTrim (String.mk buffer.reverse)
    if b = "" then [] else [b]
  | 0, _ :: _, buffer, _, _ =>
    let b := strTrim (String.mk buffer.reverse)
    if b = "" then [] else [b]
  | fuel + 1, c :: rest, buffer, parens, q =>
    if c = sqChar ∨ c = dqChar then
      match q with
      | none => split_sql_definitions_go fuel rest (c :: buffer) parens (some c)
      | some qc =>
        if c = qc then
          match rest with
          | c2 :: rest2 =>
            if c2 = qc then
              split_sql_definitions_go fuel rest2 (c :: c :: buffer) parens (some qc)
            else
              split_sql_definitions_go fuel rest (c :: buffer) parens none
          | [] => split_sql_definitions_go fuel [] (c :: buffer) parens none
        else split_sql_definitions_go fuel rest (c :: buffer) parens (some qc)
    else
      match q with
      | some _ => split_sql_definitions_go fuel rest (c :: buffer) parens q
      | none =>
        if c = '(' then split_sql_definitions_go fuel rest (c :: buffer) (parens + 1) none
        else if c = ')' then split_sql_definitions_go fuel rest (c :: buffer) (parens - 1) none
        else if c = ',' ∧ parens = 0 then
          strTrim (String.mk buffer.reverse) ::
            split_sql_definitions_go fuel rest [] parens none
        else split_sql_definitions_go fuel rest (c :: buffer) parens none

/-- `split_sql_definitions` (get-current-schema.py, lines 58-100). -/
def split_sql_definitions (definition_block : String) : List String :=
  split_sql_definitions_go definition_block.data.length definition_block.data [] 0 none

/-- Semantics of the tail `\((.*)\)[^)]*;` (with `re.S`) of the CREATE TABLE
pattern in `parse_structure`: with `s` the text after the opening paren, the
greedy group captures everything before the last close-paren that is followed,
with no intervening close-paren, by a semicolon. -/
def bodySplit (s : List Char) : Option (List Char) :=
  match s.reverse.dropWhile (fun c => decide (c ≠ ';')) with
  | ';' :: r2 =>
    match r2.dropWhile (fun c => decide (c ≠ ')')) with
    | ')' :: r3 => some r3.reverse
    | _ => none
  | _ => none

/-- One match attempt, at the head of `l`, of
`re.search(r"CREATE TABLE\s+`?(\w+)`?\s*\((.*)\)[^)]*;", stmt, re.S | re.I)`
(parse_structure, get-current-schema.py line 203). -/
def createMatchAt (l : List Char) : Option (List Char × List Char) :=
  match dropPrefixCI ("CREATE TABLE".data) l with
  | none => none
  | some r1 =>
    match r1 with
    | [] => none
    | c :: _ =>
      if c.isWhitespace then
        let r2 := r1.dropWhile Char.isWhitespace
        let r3 := match r2 with
                  | c2 :: t => if c2 = btChar then t else r2
                  | [] => r2
        let nm := r3.takeWhile isWordChar
        if nm.isEmpty then none
        else
          let r4 := r3.dropWhile isWordChar
          let r5 := match r4 with
                    | c2 :: t => if c2 = btChar then t else r4
                    | [] => r4
          match r5.dropWhile Char.isWhitespace with
          | '(' :: s => (bodySplit s).map (fun b => (nm, b))
          | _ => none
      else none

/-- Leftmost-match scan of `re.search` for the `parse_structure` pattern. -/
def createMatchGo : List Char → Option (List Char × List Char)
  | [] => none
  | c :: rest =>
    match createMatchAt (c :: rest) with
    | some r => some r
    | none => createMatchGo rest

/-- The CREATE TABLE matcher of `parse_structure`: table name and body, or
`none` when the statement does not match the pattern. -/
def createMatch (stmt : String) : Option (String × String) :=
  (createMatchGo stmt.data).map (fun p => (String.mk p.1, String.mk p.2))

/-- One match attempt, at the head of `l`, of
`re.search(r"CREATE TABLE\s+`([^`]+)`\s*\((.*)", create_sql, re.DOTALL | re.IGNORECASE)`
(split_create_table_statement, get-current-schema.py line 107). -/
def ctMatchAt (l : List Char) : Option (List Char × List Char) :=
  match dropPrefixCI ("CREATE TABLE".data) l with
  | none => none
  | some r1 =>
    match r1 with
    | [] => none
    | c :: _ =>
      if c.isWhitespace then
        match r1.dropWhile Char.isWhitespace with
        | c2 :: t =>
          if c2 = btChar then
            let nm := t.takeWhile (fun ch => decide (ch ≠ btChar))
            if nm.isEmpty then none
            else
              match t.dropWhile (fun ch => decide (ch ≠ btChar)) with
              | _ :: t2 =>
                match t2.dropWhile Char.isWhitespace with
                | '(' :: rest => some (nm, rest)
                | _ => none
              | [] => none
          else none
        | [] => none
      else none

/-- Leftmost-match scan of `re.search` for the `split_create_table_statement`
pattern. -/
def ctMatchGo : List Char → Option (List Char × List Char)
  | [] => none
  | c :: rest =>
    match ctMatchAt (c :: rest) with
    | some r => some r
    | none => ctMatchGo rest

/-- The tolerant CREATE TABLE matcher of `split_create_table_statement`. -/
def ctMatch (create_sql : String) : Option (String × String) :=
  (ctMatchGo create_sql.data).map (fun p => (String.mk p.1, String.mk p.2))

/-- The index/constraint prefixes of `split_create_table_statement`
(get-current-schema.py line 122). -/
def indexPrefixes : List String :=
  ["PRIMARY KEY", "KEY", "UNIQUE KEY", "CONSTRAINT", "FOREIGN KEY"]

/-- `split_create_table_statement` (get-current-schema.py, lines 102-136):
returns the recomposed CREATE TABLE commands and the ALTER TABLE statements for
index/constraint definitions. -/
def split_create_table_statement (create_sql : String) : List String × List String :=
  match ctMatch create_sql with
  | none => ([], [])
  | some (table_name, rest) =>
    let column_block := strTrim rest
    let definitions := split_sql_definitions column_block
    let index_defs := definitions.filter (fun d => startsWithAny (strUpper d) indexPrefixes)
    let column_defs := definitions.filter (fun d => !(startsWithAny (strUpper d) indexPrefixes))
    let create_stmt :=
      "CREATE TABLE `" ++ table_name ++ "` (\n    " ++
        joinSep ",\n    " column_defs ++ "\n);"
    let auxiliar := index_defs.map (fun ix => "ALTER TABLE `" ++ table_name ++ "` ADD " ++ ix ++ ";")
    ([create_stmt], auxiliar)

/-- Model of `re.match(r'`(\w+)`\s+([a-zA-Z0-9_]+(\([^\)]+\))?)(.*)', col_line)`
(parse_structure, get-current-schema.py line 229): column name, type token,
and the rest of the line. -/
def colMatch (line : String) : Option (String × String × String) :=
  match line.data with
  | c0 :: r1 =>
    if c0 = btChar then
      let nm := r1.takeWhile isWordChar
      if nm.isEmpty then none
      else
        match r1.dropWhile isWordChar with
        | c1 :: r2 =>
          if c1 = btChar then
            match r2 with
            | c2 :: _ =>
              if c2.isWhitespace then
                let r3 := r2.dropWhile Char.isWhitespace
                let base := r3.takeWhile (fun ch => ch.isAlphanum || ch = '_')
                if base.isEmpty then none
                else
                  let r4 := r3.dropWhile (fun ch => ch.isAlphanum || ch = '_')
                  match r4 with
                  | '(' :: r5 =>
                    let inner := r5.takeWhile (fun ch => decide (ch ≠ ')'))
                    if inner.isEmpty then
                      some (String.mk nm, String.mk base, String.mk r4)
                    else
                      match r5.dropWhile (fun ch => decide (ch ≠ ')')) with
                      | ')' :: r6 =>
                        some (String.mk nm,
                              String.mk (base ++ '(' :: inner ++ [')']),
                              String.mk r6)
                      | _ => some (String.mk nm, String.mk base, String.mk r4)
                  | _ => some (String.mk nm, String.mk base, String.mk r4)
              else none
            | [] => none
          else none
        | [] => none
    else none
  | [] => none

/-- The line-accumulation loop of `parse_structure` (get-current-schema.py,
lines 217-224): joins continuation lines and flushes a column line when it ends
with a comma or close-paren or mentions a KEY; leftover text is discarded. -/
def collectColumns : List String → String → List String
  | [], _ => []
  | l :: rest, current =>
    let line := strTrim l
    if line = "" then collectColumns rest current
    else
      let current2 := current ++ " " ++ line
      if strEndsWith line "," || strEndsWith line ")" ||
         strContains line "PRIMARY KEY" || strContains line "KEY" then
        rstripCommas (strTrim current2) :: collectColumns rest ""
      else collectColumns rest current2

/-- The tail of one `re.findall(r'PRIMARY KEY\s*\((.*?)\)', body)` match
attempt: `\s*`, `(`, then the lazy group up to the first close-paren (`.`
does not cross a newline). -/
def pkParen (s : List Char) : Option (List Char × List Char) :=
  match (s.dropWhile Char.isWhitespace) with
  | '(' :: r =>
    let grp := r.takeWhile (fun c => decide (c ≠ ')') && decide (c ≠ '\n'))
    match r.dropWhile (fun c => decide (c ≠ ')') && decide (c ≠ '\n')) with
    | ')' :: after => some (grp, after)
    | _ => none
  | _ => none

/-- Fuelled scan of `re.findall(r'PRIMARY KEY\s*\((.*?)\)', body)`
(parse_structure, get-current-schema.py line 240); matches are non-overlapping
and the scan advances one character on a failed attempt. -/
def pkFindAllGo : Nat → List Char → List (List Char)
  | 0, _ => []
  | fuel + 1, l =>
    match l with
    | [] => []
    | c :: rest =>
      if ("PRIMARY KEY".data).isPrefixOf (c :: rest) then
        match pkParen ((c :: rest).drop 11) with
        | some (grp, after) => grp :: pkFindAllGo fuel after
        | none => pkFindAllGo fuel rest
      else pkFindAllGo fuel rest

/-- All `PRIMARY KEY (...)` groups of a statement body. -/
def pkFindAll (l : List Char) : List (List Char) := pkFindAllGo l.length l

/-- Association-list lookup with Python-dict semantics. -/
def dictLookup {β : Type} (m : List (String × β)) (k : String) : Option β :=
  (m.find? (fun p => decide (p.1 = k))).map Prod.snd

/-- Association-list assignment with Python-dict semantics: replace in place,
or append a new key at the end. -/
def dictInsert {β : Type} (m : List (String × β)) (k : String) (v : β) :
    List (String × β) :=
  if m.any (fun p => decide (p.1 = k)) then
    m.map (fun p => if p.1 = k then (k, v) else p)
  else m ++ [(k, v)]

/-- The per-table result of `parse_structure`: table name to column map. -/
abbrev TableDict := List (String × List (String × ColSpec))

/-- The column-info construction of `parse_structure` (get-current-schema.py,
lines 233-236): forward-map the type, set `acceptNULL`, and set `required` when
`NOT NULL` occurs in the remainder of the line. -/
def colInfoOf (col_type rest : String) : ColSpec :=
  let info := map_sql_type col_type
  let hasNN := strContains (strUpper rest) "NOT NULL"
  let info := { info with acceptNULL := some (!hasNN) }
  if hasNN then { info with required := some true } else info

/-- Processing of one statement by `parse_structure` (get-current-schema.py,
lines 202-245).  A statement that does not match the CREATE TABLE pattern
leaves the table dict unchanged.  `sqlparse.format(body, strip_comments=True)`
is an external library call modelled as the identity on the comment-free bodies
processed here; the per-table `.sql` file write is I/O and is not modelled.
The table entry is created only when a column line matches or a PRIMARY KEY
group is found, mirroring the `defaultdict` accesses of the source. -/
def parse_structure_stmt (tables : TableDict) (stmt : String) : TableDict :=
  match createMatch stmt with
  | none => tables
  | some (table_name, body) =>
    let lines := (splitOnCharL body.data '\n').map String.mk
    let columns := collectColumns lines ""
    let colDefs := columns.filter
      (fun l => !(startsWithAny (strUpper l) ["PRIMARY KEY", "UNIQUE KEY", "KEY"]))
    let inserted := colDefs.filterMap
      (fun l => (colMatch l).map (fun r => (r.1, colInfoOf r.2.1 r.2.2)))
    let base := (dictLookup tables table_name).getD []
    let colMap := inserted.foldl (fun m p => dictInsert m p.1 p.2) base
    let pkGroups := pkFindAll body.data
    let keys := ((pkGroups.map
      (fun g => (splitOnCharL g ',').map (fun k => String.mk (stripCharsL k [btChar, ' '])))).flatten)
    let colMap2 := keys.foldl
      (fun m k =>
        match dictLookup m k with
        | some info => dictInsert m k { info with primary := some true }
        | none => m)
      colMap
    if inserted.isEmpty && pkGroups.isEmpty then tables
    else dictInsert tables table_name colMap2

/-- `parse_structure` (get-current-schema.py, lines 198-247), over the
statement list produced by the external `sqlparse.split`. -/
def parse_structure (statements : List String) : TableDict :=
  statements.foldl parse_structure_stmt []

/-!  ## generate-schema-updates.py  -/

/-- One observed column row, as consumed by `compare_and_generate_sql`:
`row[0]` is the name, `row[1]` the raw SQL type, `row[3]` the `"YES"`/`"NO"`
nullability field of `SHOW FULL COLUMNS`. -/
structure ActualRow where
  name : String
  colType : String
  nullStr : String
deriving DecidableEq

/-- `normalize_type` (generate-schema-updates.py, lines 50-56): lowercase,
keep everything before the first open paren, strip. -/
def normalize_type (sql_type : String) : String :=
  strTrim (String.mk ((strLower sql_type).data.takeWhile (fun c => decide (c ≠ '('))))

/-- The inline reverse type mapping of `compare_and_generate_sql`
(generate-schema-updates.py, lines 66-73): canonical spec to a raw MySQL type.
A zero length is falsy in Python, hence `text`. -/
def mysqlTypeOf (spec : ColSpec) : String :=
  let col_type := strUpper spec.type
  if col_type = "STRING" then
    match spec.length with
    | some n => if n = 0 then "text" else "varchar(" ++ toString n ++ ")"
    | none => "text"
  else if col_type = "INTEGER" then "int"
  else if col_type = "BOOLEAN" then "tinyint(1)"
  else if col_type = "DATETIME" then "datetime"
  else "text"

/-- The rendered column definition `` `col` type NULL/NOT NULL `` of
`compare_and_generate_sql` (generate-schema-updates.py, lines 75-76). -/
def columnDef (col : String) (spec : ColSpec) : String :=
  "`" ++ col ++ "` " ++ mysqlTypeOf spec ++ " " ++
    (if spec.acceptNULL.getD true then "NULL" else "NOT NULL")

/-- Lookup in `actual_col_map = {row[0]: row for row in actual_fields}`: the
dict comprehension keeps the last row for a repeated name. -/
def actualLookup (a : List ActualRow) (c : String) : Option ActualRow :=
  match a with
  | [] => none
  | r :: rest =>
    match actualLookup rest c with
    | some r' => some r'
    | none => if r.name = c then some r else none

/-- The modify test of `compare_and_generate_sql` (generate-schema-updates.py,
line 88): `actual_type != expected_type or actual_nullable != expected_nullable`,
with `actual_nullable = (row[3] == "YES")` and
`expected_nullable = spec.get("acceptNULL", True)`. -/
def modifyCheck (spec : ColSpec) (row : ActualRow) : Bool :=
  decide (normalize_type row.colType ≠ normalize_type (mysqlTypeOf spec)) ||
    (decide (row.nullStr = "YES") != spec.acceptNULL.getD true)

/-- The per-target-column loop of `compare_and_generate_sql`
(generate-schema-updates.py, lines 65-89), producing `adds` and `modifies` in
target iteration order. -/
def diffColumns (a : List ActualRow) : List (String × ColSpec) → List String × List String
  | [] => ([], [])
  | (col, spec) :: rest =>
    let r := diffColumns a rest
    match actualLookup a col with
    | none => (("ADD COLUMN " ++ columnDef col spec) :: r.1, r.2)
    | some row =>
      if modifyCheck spec row then
        (r.1, ("MODIFY COLUMN " ++ columnDef col spec) :: r.2)
      else r

/-- The triple returned by `compare_and_generate_sql`. -/
structure DiffResult where
  adds : List String
  modifies : List String
  drops : List String
deriving DecidableEq

/-- `compare_and_generate_sql` (generate-schema-updates.py, lines 58-94).
The drop loop of the source iterates the Python set difference
`actual_cols - expected_cols`, whose iteration order is unspecified
(hash-based); the embedding fixes the order of first occurrence in the
actual column list. -/
def compare_and_generate_sql (target : List (String × ColSpec))
    (actual : List ActualRow) : DiffResult :=
  { adds := (diffColumns actual target).1
    modifies := (diffColumns actual target).2
    drops :=
      (((actual.map ActualRow.name).dedup).filter
          (fun c => decide (c ∉ target.map Prod.fst))).map
        (fun c => "DROP COLUMN `" ++ c ++ "`") }

/-- The Boolean modify condition of `compare_and_generate_sql` for one target
column, used to characterize the loop. -/
def modNeeded (a : List ActualRow) (p : String × ColSpec) : Bool :=
  match actualLookup a p.1 with
  | none => false
  | some row => modifyCheck p.2 row

/-- A clause for column `col` occurs in the adds of a diff result. -/
def namesAdd (r : DiffResult) (col : String) : Prop :=
  ∃ spec : ColSpec, ("ADD COLUMN " ++ columnDef col spec) ∈ r.adds

/-- A clause for column `col` occurs in the modifies of a diff result. -/
def namesModify (r : DiffResult) (col : String) : Prop :=
  ∃ spec : ColSpec, ("MODIFY COLUMN " ++ columnDef col spec) ∈ r.modifies

/-- The drop clause for column `col` occurs in the drops of a diff result. -/
def namesDrop (r : DiffResult) (col : String) : Prop :=
  ("DROP COLUMN `" ++ col ++ "`") ∈ r.drops

/-- Boolean form of "the actual row, when present, matches the target spec
after normalization", used to state diff idempotence decidably. -/
def rowMatches (spec : ColSpec) : Option ActualRow → Bool
  | none => true
  | some row =>
    decide (normalize_type row.colType = normalize_type (mysqlTypeOf spec)) &&
      (decide (row.nullStr = "YES") == spec.acceptNULL.getD true)

/-- Witness fixture: a one-column STRING target schema. -/
def wspec3 : ColSpec := ⟨"STRING", some 50, some true, none, none⟩

/-- Witness fixture: target list for the modify-iff witness. -/
def wt3 : List (String × ColSpec) := [("name", wspec3)]

/-- Witness fixture: the observed row for the modify-iff witness. -/
def wrow3 : ActualRow := ⟨"name", "varchar(255)", "YES"⟩

/-- Witness fixture: actual structure for the modify-iff witness. -/
def wa3 : List ActualRow := [wrow3]

/-- Witness fixture: target list with one column present in actual and one
absent. -/
def wt4 : List (String × ColSpec) :=
  [("id", ⟨"INTEGER", none, some false, none, none⟩),
   ("extra", ⟨"STRING", some 5, none, none, none⟩)]

/-- Witness fixture: actual structure with one target column and one
actual-only column. -/
def wa4 : List ActualRow := [⟨"id", "int", "NO"⟩, ⟨"legacy", "text", "YES"⟩]

/-- Witness fixture: a target schema matched exactly by `wa5`. -/
def wt5 : List (String × ColSpec) :=
  [("id", ⟨"INTEGER", none, some false, none, none⟩),
   ("name", ⟨"STRING", some 50, some true, none, none⟩)]

/-- Witness fixture: an actual structure equivalent to `wt5` after reverse
mapping and normalization. -/
def wa5 : List ActualRow := [⟨"id", "int", "NO"⟩, ⟨"name", "varchar(255)", "YES"⟩]

/-!  ## Helper lemmas  -/

theorem takeWhile_append_of_all {α : Type} {p : α → Bool} :
    ∀ {l1 l2 : List α}, (∀ a ∈ l1, p a = true) →
      (l1 ++ l2).takeWhile p = l1 ++ l2.takeWhile p := by
  intro l1
  induction l1 with
  | nil => intro l2 _; simp
  | cons a t ih =>
    intro l2 h
    have ha : p a = true := h a (List.mem_cons_self a t)
    simp only [List.cons_append, List.takeWhile_cons_of_pos ha]
    exact congrArg (a :: ·) (ih (fun b hb => h b (List.mem_cons_of_mem a hb)))

theorem dropWhile_append_of_all {α : Type} {p : α → Bool} :
    ∀ {l1 l2 : List α}, (∀ a ∈ l1, p a = true) →
      (l1 ++ l2).dropWhile p = l2.dropWhile p := by
  intro l1
  induction l1 with
  | nil => intro l2 _; simp
  | cons a t ih =>
    intro l2 h
    have ha : p a = true := h a (List.mem_cons_self a t)
    simp only [List.cons_append, List.dropWhile_cons_of_pos ha]
    exact ih (fun b hb => h b (List.mem_cons_of_mem a hb))

theorem eq_of_append_cons_eq {α : Type} {c : α} :
    ∀ {l1 l2 r1 r2 : List α}, c ∉ l1 → c ∉ l2 →
      l1 ++ c :: r1 = l2 ++ c :: r2 → l1 = l2 ∧ r1 = r2 := by
  intro l1
  induction l1 with
  | nil =>
    intro l2 r1 r2 _ h2 h
    cases l2 with
    | nil => simpa using h
    | cons b t =>
      simp only [List.nil_append, List.cons_append, List.cons.injEq] at h
      exact absurd (h.1 ▸ List.mem_cons_self b t) h2
  | cons a t1 ih =>
    intro l2 r1 r2 h1 h2 h
    cases l2 with
    | nil =>
      simp only [List.nil_append, List.cons_append, List.cons.injEq] at h
      exact absurd (h.1 ▸ List.mem_cons_self a t1) (fun hm => h1 hm)
    | cons b t2 =>
      simp only [List.cons_append, List.cons.injEq] at h
      obtain ⟨hab, htl⟩ := h
      have h1' : c ∉ t1 := fun hm => h1 (List.mem_cons_of_mem a hm)
      have h2' : c ∉ t2 := fun hm => h2 (List.mem_cons_of_mem b hm)
      obtain ⟨he, hr⟩ := ih h1' h2' htl
      exact ⟨by rw [hab, he], hr⟩

theorem strName_eq {s t : String} {x y : List Char}
    (hs : btChar ∉ s.data) (ht : btChar ∉ t.data)
    (h : s.data ++ btChar :: x = t.data ++ btChar :: y) : s = t ∧ x = y :=
  let r := eq_of_append_cons_eq hs ht h
  ⟨String.ext r.1, r.2⟩

theorem columnDef_data (col : String) (spec : ColSpec) :
    (columnDef col spec).data =
      btChar :: (col.data ++ btChar :: ' ' ::
        ((mysqlTypeOf spec).data ++ ' ' ::
          (if spec.acceptNULL.getD true then "NULL" else "NOT NULL").data)) := by
  have hbt : ("`" : String).data = [btChar] := by decide
  have hbs : ("` " : String).data = [btChar, ' '] := by decide
  have hsp : (" " : String).data = [' '] := by decide
  unfold columnDef
  simp only [btChar, String.data_append, hbt, hbs, hsp, List.append_assoc,
    List.cons_append, List.singleton_append, List.nil_append]

theorem columnDef_inj_name {col col' : String} {s s' : ColSpec}
    (h1 : btChar ∉ col.data) (h2 : btChar ∉ col'.data)
    (h : columnDef col s = columnDef col' s') : col = col' := by
  have hd := congrArg String.data h
  rw [columnDef_data, columnDef_data] at hd
  have hd2 := (List.cons.inj hd).2
  exact (strName_eq h1 h2 hd2).1

theorem clause_cancel {pre : String} {u v : String} (h : pre ++ u = pre ++ v) : u = v := by
  have hd := congrArg String.data h
  simp only [String.data_append] at hd
  exact String.ext (List.append_cancel_left hd)

theorem dropClause_inj : Function.Injective (fun c : String => "DROP COLUMN `" ++ c ++ "`") := by
  intro x y h
  have hd := congrArg String.data h
  simp only [String.data_append] at hd
  rw [List.append_assoc, List.append_assoc] at hd
  exact String.ext (List.append_cancel_right (List.append_cancel_left hd))

theorem actualLookup_eq_none_iff (a : List ActualRow) (c : String) :
    actualLookup a c = none ↔ c ∉ a.map ActualRow.name := by
  induction a with
  | nil => simp [actualLookup]
  | cons r rest ih =>
    simp only [actualLookup, List.map_cons, List.mem_cons]
    cases h : actualLookup rest c with
    | some r' =>
      have hmem : c ∈ rest.map ActualRow.name := by
        by_contra hc
        have hnone := ih.mpr hc
        rw [h] at hnone
        exact Option.noConfusion hnone
      simp [hmem]
    | none =>
      have hr : c ∉ rest.map ActualRow.name := ih.mp h
      by_cases hn : r.name = c
      · simp [hn]
      · have hn' : ¬ c = r.name := fun hh => hn hh.symm
        simp [hn, hn', hr]

theorem actualLookup_isSome_of_mem {a : List ActualRow} {c : String}
    (h : c ∈ a.map ActualRow.name) : actualLookup a c ≠ none := by
  intro hn
  exact (actualLookup_eq_none_iff a c).mp hn h

theorem diffColumns_fst (a : List ActualRow) :
    ∀ t : List (String × ColSpec),
      (diffColumns a t).1 =
        (t.filter (fun p => (actualLookup a p.1).isNone)).map
          (fun p => "ADD COLUMN " ++ columnDef p.1 p.2) := by
  intro t
  induction t with
  | nil => rfl
  | cons p rest ih =>
    obtain ⟨col, spec⟩ := p
    simp only [diffColumns]
    cases h : actualLookup a col with
    | none => simp [List.filter_cons, h, ih]
    | some row =>
      cases hc : modifyCheck spec row with
      | true => simp [List.filter_cons, h, hc, ih]
      | false => simp [List.filter_cons, h, hc, ih]

theorem diffColumns_snd (a : List ActualRow) :
    ∀ t : List (String × ColSpec),
      (diffColumns a t).2 =
        (t.filter (fun p => modNeeded a p)).map
          (fun p => "MODIFY COLUMN " ++ columnDef p.1 p.2) := by
  intro t
  induction t with
  | nil => rfl
  | cons p rest ih =>
    obtain ⟨col, spec⟩ := p
    simp only [diffColumns]
    cases h : actualLookup a col with
    | none => simp [List.filter_cons, modNeeded, h, ih]
    | some row =>
      cases hc : modifyCheck spec row with
      | true => simp [List.filter_cons, modNeeded, h, hc, ih]
      | false => simp [List.filter_cons, modNeeded, h, hc, ih]

theorem modifyCheck_eq_true_iff (spec : ColSpec) (row : ActualRow) :
    modifyCheck spec row = true ↔
      (normalize_type row.colType ≠ normalize_type (mysqlTypeOf spec) ∨
       decide (row.nullStr = "YES") ≠ spec.acceptNULL.getD true) := by
  simp [modifyCheck]

theorem modNeeded_eq_true_iff {a : List ActualRow} {col : String} {spec : ColSpec}
    {row : ActualRow} (h : actualLookup a col = some row) :
    modNeeded a (col, spec) = true ↔ modifyCheck spec row = true := by
  simp [modNeeded, h]

theorem entry_eq_of_nodup {t : List (String × ColSpec)}
    (h : (t.map Prod.fst).Nodup) {p q : String × ColSpec}
    (hp : p ∈ t) (hq : q ∈ t) (hn : p.1 = q.1) : p = q :=
  List.inj_on_of_nodup_map h hp hq hn

theorem normalize_type_data (s : String) :
    (normalize_type s).data =
      trimListWS ((s.data.map Char.toLower).takeWhile (fun c => decide (c ≠ '('))) := rfl

theorem normalize_varchar (s : String) :
    normalize_type ("varchar(" ++ s ++ ")") = "varchar" := by
  apply String.ext
  rw [normalize_type_data]
  have hd : ("varchar(" ++ s ++ ")").data = ("varchar(".data ++ s.data) ++ ")".data := by
    rw [String.data_append, String.data_append]
  rw [hd, List.map_append, List.map_append]
  have hA : List.map Char.toLower "varchar(".data = "varchar".data ++ ['('] := by decide
  have hB : List.map Char.toLower ")".data = [')'] := by decide
  rw [hA, hB, List.append_assoc, List.append_assoc]
  rw [takeWhile_append_of_all
    (show ∀ a ∈ "varchar".data, (fun c => decide (c ≠ '(')) a = true from by decide)]
  rw [List.singleton_append, List.takeWhile_cons_of_neg (by decide)]
  rw [List.append_nil]
  decide

theorem compare_adds_eq (t : List (String × ColSpec)) (a : List ActualRow) :
    (compare_and_generate_sql t a).adds =
      (t.filter (fun p => (actualLookup a p.1).isNone)).map
        (fun p => "ADD COLUMN " ++ columnDef p.1 p.2) := diffColumns_fst a t

theorem compare_mods_eq (t : List (String × ColSpec)) (a : List ActualRow) :
    (compare_and_generate_sql t a).modifies =
      (t.filter (fun p => modNeeded a p)).map
        (fun p => "MODIFY COLUMN " ++ columnDef p.1 p.2) := diffColumns_snd a t

theorem compare_drops_eq (t : List (String × ColSpec)) (a : List ActualRow) :
    (compare_and_generate_sql t a).drops =
      (((a.map ActualRow.name).dedup).filter
          (fun c => decide (c ∉ t.map Prod.fst))).map
        (fun c => "DROP COLUMN `" ++ c ++ "`") := rfl

theorem mem_adds_name {t : List (String × ColSpec)} {a : List ActualRow}
    {col : String} {spec' : ColSpec}
    (hbt : ∀ p ∈ t, btChar ∉ p.1.data) (hcol : btChar ∉ col.data)
    (h : ("ADD COLUMN " ++ columnDef col spec') ∈ (compare_and_generate_sql t a).adds) :
    ∃ p ∈ t, p.1 = col ∧ actualLookup a p.1 = none := by
  rw [compare_adds_eq] at h
  obtain ⟨p, hpf, heq⟩ := List.mem_map.mp h
  obtain ⟨hpt, hflt⟩ := List.mem_filter.mp hpf
  have hcd : columnDef p.1 p.2 = columnDef col spec' := clause_cancel heq
  have hname : p.1 = col := columnDef_inj_name (hbt p hpt) hcol hcd
  refine ⟨p, hpt, hname, ?_⟩
  simpa [Option.isNone_iff_eq_none] using hflt

theorem mem_mods_name {t : List (String × ColSpec)} {a : List ActualRow}
    {col : String} {spec' : ColSpec}
    (hbt : ∀ p ∈ t, btChar ∉ p.1.data) (hcol : btChar ∉ col.data)
    (h : ("MODIFY COLUMN " ++ columnDef col spec') ∈ (compare_and_generate_sql t a).modifies) :
    ∃ p ∈ t, p.1 = col ∧ modNeeded a p = true := by
  rw [compare_mods_eq] at h
  obtain ⟨p, hpf, heq⟩ := List.mem_map.mp h
  obtain ⟨hpt, hflt⟩ := List.mem_filter.mp hpf
  have hcd : columnDef p.1 p.2 = columnDef col spec' := clause_cancel heq
  have hname : p.1 = col := columnDef_inj_name (hbt p hpt) hcol hcd
  exact ⟨p, hpt, hname, hflt⟩

theorem mem_drops_name {t : List (String × ColSpec)} {a : List ActualRow} {col : String}
    (h : ("DROP COLUMN `" ++ col ++ "`") ∈ (compare_and_generate_sql t a).drops) :
    col ∈ a.map ActualRow.name ∧ col ∉ t.map Prod.fst := by
  rw [compare_drops_eq] at h
  obtain ⟨c, hcf, heq⟩ := List.mem_map.mp h
  obtain ⟨hcd, hflt⟩ := List.mem_filter.mp hcf
  have hc : c = col := dropClause_inj heq
  subst hc
  exact ⟨List.mem_dedup.mp hcd, by simpa using hflt⟩

theorem adds_mem_intro {t : List (String × ColSpec)} {a : List ActualRow}
    {p : String × ColSpec} (hpt : p ∈ t) (hnone : actualLookup a p.1 = none) :
    ("ADD COLUMN " ++ columnDef p.1 p.2) ∈ (compare_and_generate_sql t a).adds := by
  rw [compare_adds_eq]
  exact List.mem_map.mpr ⟨p, List.mem_filter.mpr ⟨hpt, by simp [hnone]⟩, rfl⟩

theorem mods_mem_intro {t : List (String × ColSpec)} {a : List ActualRow}
    {p : String × ColSpec} (hpt : p ∈ t) (hmn : modNeeded a p = true) :
    ("MODIFY COLUMN " ++ columnDef p.1 p.2) ∈ (compare_and_generate_sql t a).modifies := by
  rw [compare_mods_eq]
  exact List.mem_map.mpr ⟨p, List.mem_filter.mpr ⟨hpt, hmn⟩, rfl⟩

theorem drops_mem_intro {t : List (String × ColSpec)} {a : List ActualRow} {col : String}
    (h1 : col ∈ a.map ActualRow.name) (h2 : col ∉ t.map Prod.fst) :
    ("DROP COLUMN `" ++ col ++ "`") ∈ (compare_and_generate_sql t a).drops := by
  rw [compare_drops_eq]
  exact List.mem_map.mpr
    ⟨col, List.mem_filter.mpr ⟨List.mem_dedup.mpr h1, by simpa using h2⟩, rfl⟩

theorem adds_nodup {t : List (String × ColSpec)} {a : List ActualRow}
    (hnd : (t.map Prod.fst).Nodup) (hbt : ∀ p ∈ t, btChar ∉ p.1.data) :
    (compare_and_generate_sql t a).adds.Nodup := by
  rw [compare_adds_eq]
  refine List.Nodup.map_on ?_ ((hnd.of_map).filter _)
  intro x hx y hy hxy
  have hx' := (List.mem_filter.mp hx).1
  have hy' := (List.mem_filter.mp hy).1
  have hcd : columnDef x.1 x.2 = columnDef y.1 y.2 := clause_cancel hxy
  exact entry_eq_of_nodup hnd hx' hy' (columnDef_inj_name (hbt x hx') (hbt y hy') hcd)

theorem drops_nodup (t : List (String × ColSpec)) (a : List ActualRow) :
    (compare_and_generate_sql t a).drops.Nodup := by
  rw [compare_drops_eq]
  exact (((List.nodup_dedup _).filter _)).map dropClause_inj

theorem reMatchType_closed {b ds : List Char}
    (hb : b ≠ []) (hbw : ∀ c ∈ b, isWordChar c = true)
    (hds : ds ≠ []) (hdsd : ∀ c ∈ ds, c.isDigit = true) :
    reMatchType (b ++ '(' :: (ds ++ [')'])) = some (b, some (digitsToNat ds)) := by
  have h1 : (b ++ '(' :: (ds ++ [')'])).takeWhile isWordChar = b := by
    rw [takeWhile_append_of_all hbw, List.takeWhile_cons_of_neg (by decide)]
    exact List.append_nil b
  have h2 : (b ++ '(' :: (ds ++ [')'])).dropWhile isWordChar = '(' :: (ds ++ [')']) := by
    rw [dropWhile_append_of_all hbw, List.dropWhile_cons_of_neg (by decide)]
  have h3 : (ds ++ [')']).takeWhile Char.isDigit = ds := by
    rw [takeWhile_append_of_all hdsd, List.takeWhile_cons_of_neg (by decide)]
    exact List.append_nil ds
  have h4 : (ds ++ [')']).dropWhile Char.isDigit = [')'] := by
    rw [dropWhile_append_of_all hdsd, List.dropWhile_cons_of_neg (by decide)]
  have hbe : b.isEmpty = false := by
    cases b
    · exact absurd rfl hb
    · rfl
  have hde : ds.isEmpty = false := by
    cases ds
    · exact absurd rfl hds
    · rfl
  simp only [reMatchType, h1, h2, h3, h4, hbe, hde, Bool.false_eq_true, if_false]

theorem reMatchType_word_only {b : List Char}
    (hb : b ≠ []) (hbw : ∀ c ∈ b, isWordChar c = true) :
    reMatchType b = some (b, none) := by
  have h1 : b.takeWhile isWordChar = b := by
    have h := @takeWhile_append_of_all Char isWordChar b [] hbw
    simpa using h
  have h2 : b.dropWhile isWordChar = [] := by
    have h := @dropWhile_append_of_all Char isWordChar b [] hbw
    simpa using h
  have hbe : b.isEmpty = false := by
    cases b
    · exact absurd rfl hb
    · rfl
  simp only [reMatchType, h1, h2, hbe, Bool.false_eq_true, if_false]

/-!  ## Claim theorems  -/

/-- Claim C1: the statement splitter splits only on commas outside quotes at
parenthesis depth zero; inside a quote run only the matching quote character
ends it and a doubled matching quote is an escaped literal, not a terminator.
The four instances cover a comma inside a single-quoted default, a doubled
escaped quote, commas nested in parentheses and quotes, and a double-quoted
run; in particular splitting the spec's example yields exactly two
definitions, the first keeping the literal comma inside the quoted default. -/
theorem C1_splitter_quote_safety :
    split_sql_definitions "`a` varchar(10) DEFAULT 'x,y', `b` int" =
      ["`a` varchar(10) DEFAULT 'x,y'", "`b` int"] ∧
    split_sql_definitions "`a` text DEFAULT 'it''s, ok', `b` int" =
      ["`a` text DEFAULT 'it''s, ok'", "`b` int"] ∧
    split_sql_definitions "`a` enum('x','y','z') NOT NULL, `b` int" =
      ["`a` enum('x','y','z') NOT NULL", "`b` int"] ∧
    split_sql_definitions "`a` char(2) DEFAULT \"x,y\", `b` int" =
      ["`a` char(2) DEFAULT \"x,y\"", "`b` int"] :=
  ⟨by decide, by decide, by decide, by decide⟩

/-- Claim C2 counterexample: `int(11)` has a base mapping to INTEGER, yet the
forward mapping captures the numeric argument as the length, contradicting the
claim that a length is captured only when the base mapped to STRING. -/
theorem C2_counterexample_int11 :
    (map_sql_type "int(11)").type = "INTEGER" ∧
    (map_sql_type "int(11)").length = some 11 :=
  ⟨by decide, by decide⟩

/-- Claim C2 amended: the forward mapping lowercases the base and maps it
through the fixed table with STRING as default, and a numeric argument `(N)`
is captured as the length whenever it is present, regardless of which
canonical type the base mapped to. -/
theorem C2_length_always_captured (b ds : String)
    (hb : b.data ≠ []) (hbw : ∀ c ∈ b.data, isWordChar c = true)
    (hds : ds.data ≠ []) (hdsd : ∀ c ∈ ds.data, c.isDigit = true) :
    map_sql_type (b ++ "(" ++ ds ++ ")") =
      { type := typeMapGet (strLower b), length := some (digitsToNat ds.data) } ∧
    map_sql_type b = { type := typeMapGet (strLower b), length := none } := by
  constructor
  · have hdata : (b ++ "(" ++ ds ++ ")").data = b.data ++ '(' :: (ds.data ++ [')']) := by
      rw [String.data_append, String.data_append, String.data_append]
      have h1 : (("(" : String)).data = ['('] := by decide
      have h2 : ((")" : String)).data = [')'] := by decide
      rw [h1, h2, List.append_assoc, List.append_assoc]
      rfl
    unfold map_sql_type
    rw [hdata, reMatchType_closed hb hbw hds hdsd]
  · unfold map_sql_type
    rw [reMatchType_word_only hb hbw]

/-- Witness for the amended C2 at base `int` and argument `11`. -/
theorem C2_length_always_captured_witness :
    ((("int" : String)).data ≠ [] ∧ (∀ c ∈ (("int" : String)).data, isWordChar c = true) ∧
     (("11" : String)).data ≠ [] ∧ (∀ c ∈ (("11" : String)).data, c.isDigit = true)) ∧
    (map_sql_type ("int" ++ "(" ++ "11" ++ ")") =
        { type := typeMapGet (strLower "int"), length := some (digitsToNat (("11" : String)).data) } ∧
     map_sql_type "int" = { type := typeMapGet (strLower "int"), length := none }) :=
  ⟨⟨by decide, by decide, by decide, by decide⟩,
   C2_length_always_captured "int" "11" (by decide) (by decide) (by decide) (by decide)⟩

/-- Claim C7 counterexample: the scenario statement as given (one line, no
trailing semicolon) does not match parse_structure's CREATE TABLE pattern,
which requires a semicolon; its column map is therefore empty, not the claimed
two-column map. -/
theorem C7_counterexample_missing_semicolon :
    parse_structure
        ["CREATE TABLE `t` (`id` int NOT NULL, `n` varchar(10) NULL, PRIMARY KEY (`id`))"] = [] ∧
    createMatch
        "CREATE TABLE `t` (`id` int NOT NULL, `n` varchar(10) NULL, PRIMARY KEY (`id`))" = none :=
  ⟨by decide, by decide⟩

/-- Claim C7 amended: `split_create_table_statement` is the tolerant extractor
(no trailing semicolon needed) and yields exactly one index definition for the
primary key (carrying a stray close-paren from the greedy body capture), while
`parse_structure`, which builds the column map, requires the trailing semicolon
and one definition per line, and on that form yields exactly the claimed
column map with one primary-key column. -/
theorem C7_parse_scenario_amended :
    split_create_table_statement
        "CREATE TABLE `t` (`id` int NOT NULL, `n` varchar(10) NULL, PRIMARY KEY (`id`))" =
      (["CREATE TABLE `t` (\n    `id` int NOT NULL,\n    `n` varchar(10) NULL\n);"],
       ["ALTER TABLE `t` ADD PRIMARY KEY (`id`));"]) ∧
    parse_structure
        ["CREATE TABLE `t` (\n  `id` int NOT NULL,\n  `n` varchar(10) NULL,\n  PRIMARY KEY (`id`)\n);"] =
      [("t", [("id", ⟨"INTEGER", none, some false, some true, some true⟩),
              ("n", ⟨"STRING", some 10, some true, none, none⟩)])] :=
  ⟨by decide, by decide⟩

/-- Claim C8 counterexample: the representative raw form `boolean` maps
forward to BOOLEAN and back to `tinyint(1)`, not to its normalized raw form
`boolean`, so the round-trip fails for that type-table pair. -/
theorem C8_counterexample_boolean :
    mysqlTypeOf (map_sql_type "boolean") = "tinyint(1)" ∧
    normalize_type "boolean" = "boolean" ∧
    mysqlTypeOf (map_sql_type "boolean") ≠ "boolean" :=
  ⟨by decide, by decide, by decide⟩

/-- Claim C8 amended: the round trip returns the raw form itself exactly for
`varchar(N)`, `text`, `int` and `datetime`; the remaining table entries
`char(N)`, `bigint`, `tinyint`, `timestamp`, `boolean` return the canonical
representative of their mapped type (`varchar(N)`, `int`, `int`, `datetime`,
`tinyint(1)`) instead of the original raw form. -/
theorem C8_roundtrip_amended :
    mysqlTypeOf (map_sql_type "varchar(255)") = "varchar(255)" ∧
    mysqlTypeOf (map_sql_type "text") = "text" ∧
    mysqlTypeOf (map_sql_type "int") = "int" ∧
    mysqlTypeOf (map_sql_type "datetime") = "datetime" ∧
    mysqlTypeOf (map_sql_type "char(10)") = "varchar(10)" ∧
    mysqlTypeOf (map_sql_type "bigint") = "int" ∧
    mysqlTypeOf (map_sql_type "tinyint") = "int" ∧
    mysqlTypeOf (map_sql_type "timestamp") = "datetime" ∧
    mysqlTypeOf (map_sql_type "boolean") = "tinyint(1)" :=
  ⟨by decide, by decide, by decide, by decide, by decide, by decide, by decide,
   by decide, by decide⟩

/-- Claim C9: a statement that does not match the CREATE TABLE pattern is
skipped, not an error: inserted anywhere into a statement list it contributes
no entries and the remaining statements are processed exactly as without it
(all embedded parsing functions are total, so no input fails). -/
theorem C9_skip_nonmatching (pre post : List String) (stmt : String)
    (h : createMatch stmt = none) :
    parse_structure (pre ++ stmt :: post) = parse_structure (pre ++ post) := by
  unfold parse_structure
  rw [List.foldl_append, List.foldl_append, List.foldl_cons]
  congr 1
  simp [parse_structure_stmt, h]

/-- Witness for C9: a DROP TABLE statement between CREATE TABLE statements is
skipped. -/
theorem C9_skip_nonmatching_witness :
    createMatch "DROP TABLE IF EXISTS `t`;" = none ∧
    parse_structure
        (["CREATE TABLE `t` (\n  `id` int NOT NULL\n);"] ++
          "DROP TABLE IF EXISTS `t`;" :: ["CREATE TABLE `u` (\n  `x` int NULL\n);"]) =
      parse_structure
        (["CREATE TABLE `t` (\n  `id` int NOT NULL\n);"] ++
          ["CREATE TABLE `u` (\n  `x` int NULL\n);"]) :=
  ⟨by decide,
   C9_skip_nonmatching ["CREATE TABLE `t` (\n  `id` int NOT NULL\n);"]
     ["CREATE TABLE `u` (\n  `x` int NULL\n);"] "DROP TABLE IF EXISTS `t`;" (by decide)⟩

/-- Claim C10: diffing any target schema against an empty actual column list
yields one ADD COLUMN clause per target column, in target iteration order,
with empty modifies and empty drops. -/
theorem C10_empty_actual_all_adds (t : List (String × ColSpec)) :
    compare_and_generate_sql t [] =
      ⟨t.map (fun p => "ADD COLUMN " ++ columnDef p.1 p.2), [], []⟩ := by
  have h1 : (compare_and_generate_sql t []).adds =
      t.map (fun p => "ADD COLUMN " ++ columnDef p.1 p.2) := by
    rw [compare_adds_eq, List.filter_eq_self.mpr]
    intro p _
    simp [actualLookup]
  have h2 : (compare_and_generate_sql t []).modifies = [] := by
    rw [compare_mods_eq, List.filter_eq_nil_iff.mpr]
    · rfl
    · intro p _
      simp [modNeeded, actualLookup]
  have h3 : (compare_and_generate_sql t []).drops = [] := by
    rw [compare_drops_eq]
    rfl
  conv_lhs => rw [show compare_and_generate_sql t [] =
    DiffResult.mk (compare_and_generate_sql t []).adds
      (compare_and_generate_sql t []).modifies
      (compare_and_generate_sql t []).drops from rfl]
  rw [h1, h2, h3]

/-- Claim C5: diffing a target schema against an actual structure with the
same column set, where every present column's reverse-mapped type (after
base-token normalization) and nullability match the actual row, yields empty
adds, modifies and drops. -/
theorem C5_diff_idempotence (t : List (String × ColSpec)) (a : List ActualRow)
    (h1 : ∀ c ∈ t.map Prod.fst, c ∈ a.map ActualRow.name)
    (h2 : ∀ c ∈ a.map ActualRow.name, c ∈ t.map Prod.fst)
    (h3 : ∀ p ∈ t, rowMatches p.2 (actualLookup a p.1) = true) :
    compare_and_generate_sql t a = ⟨[], [], []⟩ := by
  have hadds : (compare_and_generate_sql t a).adds = [] := by
    rw [compare_adds_eq, List.filter_eq_nil_iff.mpr]
    · rfl
    · intro p hp
      have hmem : p.1 ∈ a.map ActualRow.name := h1 p.1 (List.mem_map_of_mem Prod.fst hp)
      rw [Option.isNone_iff_eq_none]
      exact actualLookup_isSome_of_mem hmem
  have hmods : (compare_and_generate_sql t a).modifies = [] := by
    rw [compare_mods_eq, List.filter_eq_nil_iff.mpr]
    · rfl
    · intro p hp
      cases hl : actualLookup a p.1 with
      | none => simp [modNeeded, hl]
      | some row =>
        have hrm := h3 p hp
        rw [hl] at hrm
        simp only [rowMatches, Bool.and_eq_true, decide_eq_true_eq, beq_iff_eq] at hrm
        simp [modNeeded, hl, modifyCheck, hrm.1, hrm.2]
  have hdrops : (compare_and_generate_sql t a).drops = [] := by
    rw [compare_drops_eq, List.filter_eq_nil_iff.mpr]
    · rfl
    · intro c hc
      have hmem := h2 c (List.mem_dedup.mp hc)
      simp [hmem]
  conv_lhs => rw [show compare_and_generate_sql t a =
    DiffResult.mk (compare_and_generate_sql t a).adds
      (compare_and_generate_sql t a).modifies
      (compare_and_generate_sql t a).drops from rfl]
  rw [hadds, hmods, hdrops]

/-- Witness for C5 at a two-column schema matching its actual structure. -/
theorem C5_diff_idempotence_witness :
    ((∀ c ∈ wt5.map Prod.fst, c ∈ wa5.map ActualRow.name) ∧
     (∀ c ∈ wa5.map ActualRow.name, c ∈ wt5.map Prod.fst) ∧
     (∀ p ∈ wt5, rowMatches p.2 (actualLookup wa5 p.1) = true)) ∧
    compare_and_generate_sql wt5 wa5 = ⟨[], [], []⟩ :=
  ⟨⟨by decide, by decide, by decide⟩,
   C5_diff_idempotence wt5 wa5 (by decide) (by decide) (by decide)⟩

/-- Claim C3: for a target column present in the actual structure the differ
emits a MODIFY COLUMN clause iff the normalized base token of the actual SQL
type differs from that of the reverse-mapped target type or the actual
nullability differs from the accept-null flag; in particular a STRING column
whose actual type is a varchar of any length with matching nullability never
produces a modify, so length-only changes are invisible. -/
theorem C3_modify_iff (t : List (String × ColSpec)) (a : List ActualRow)
    (col : String) (spec : ColSpec) (row : ActualRow)
    (hnd : (t.map Prod.fst).Nodup)
    (hbt : ∀ p ∈ t, btChar ∉ p.1.data)
    (hmem : (col, spec) ∈ t)
    (hrow : actualLookup a col = some row) :
    (namesModify (compare_and_generate_sql t a) col ↔
      (normalize_type row.colType ≠ normalize_type (mysqlTypeOf spec) ∨
       decide (row.nullStr = "YES") ≠ spec.acceptNULL.getD true)) ∧
    (spec.type = "STRING" →
      ∀ n m : Nat, spec.length = some n → n ≠ 0 →
        row.colType = "varchar(" ++ toString m ++ ")" →
        decide (row.nullStr = "YES") = spec.acceptNULL.getD true →
        ¬ namesModify (compare_and_generate_sql t a) col) := by
  have hcol : btChar ∉ col.data := hbt (col, spec) hmem
  have hiff : namesModify (compare_and_generate_sql t a) col ↔
      modifyCheck spec row = true := by
    constructor
    · rintro ⟨spec', hin⟩
      obtain ⟨p, hpt, hname, hmn⟩ := mem_mods_name hbt hcol hin
      have hpeq : p = (col, spec) := entry_eq_of_nodup hnd hpt hmem hname
      rw [hpeq] at hmn
      rwa [modNeeded_eq_true_iff hrow] at hmn
    · intro hmc
      exact ⟨spec, mods_mem_intro hmem ((modNeeded_eq_true_iff hrow).mpr hmc)⟩
  constructor
  · rw [hiff, modifyCheck_eq_true_iff]
  · intro hSTR n m hlen hn0 hctype hnull
    rw [hiff, modifyCheck_eq_true_iff]
    intro hmc
    rcases hmc with hmc | hmc
    · apply hmc
      rw [hctype, normalize_varchar]
      have hu : strUpper "STRING" = "STRING" := by decide
      have hmt : mysqlTypeOf spec = "varchar(" ++ toString n ++ ")" := by
        simp [mysqlTypeOf, hSTR, hu, hlen, hn0]
      rw [hmt, normalize_varchar]
    · exact hmc hnull

/-- Witness for C3 at a STRING column whose actual varchar length differs. -/
theorem C3_modify_iff_witness :
    ((wt3.map Prod.fst).Nodup ∧ (∀ p ∈ wt3, btChar ∉ p.1.data) ∧
      ("name", wspec3) ∈ wt3 ∧ actualLookup wa3 "name" = some wrow3) ∧
    ((namesModify (compare_and_generate_sql wt3 wa3) "name" ↔
        (normalize_type wrow3.colType ≠ normalize_type (mysqlTypeOf wspec3) ∨
         decide (wrow3.nullStr = "YES") ≠ wspec3.acceptNULL.getD true)) ∧
     (wspec3.type = "STRING" →
       ∀ n m : Nat, wspec3.length = some n → n ≠ 0 →
         wrow3.colType = "varchar(" ++ toString m ++ ")" →
         decide (wrow3.nullStr = "YES") = wspec3.acceptNULL.getD true →
         ¬ namesModify (compare_and_generate_sql wt3 wa3) "name")) :=
  ⟨⟨by decide, by decide, by decide, by decide⟩,
   C3_modify_iff wt3 wa3 "name" wspec3 wrow3 (by decide) (by decide) (by decide) (by decide)⟩

/-- Claim C4: in one diff, every target column either has its ADD COLUMN
clause exactly once (and is named by no modify and no drop clause), or was
checked for modification because it is present in actual (and is named by no
add and no drop clause); every actual-only column has its DROP COLUMN clause
exactly once and is named by no add or modify clause.  No column name appears
in more than one of the three lists. -/
theorem C4_diff_partition (t : List (String × ColSpec)) (a : List ActualRow)
    (hnd : (t.map Prod.fst).Nodup)
    (hbt : ∀ p ∈ t, btChar ∉ p.1.data)
    (hba : ∀ r ∈ a, btChar ∉ r.name.data) :
    (∀ p ∈ t,
      (actualLookup a p.1 = none →
        (compare_and_generate_sql t a).adds.count ("ADD COLUMN " ++ columnDef p.1 p.2) = 1 ∧
        ¬ namesModify (compare_and_generate_sql t a) p.1 ∧
        ¬ namesDrop (compare_and_generate_sql t a) p.1) ∧
      (actualLookup a p.1 ≠ none →
        ¬ namesAdd (compare_and_generate_sql t a) p.1 ∧
        ¬ namesDrop (compare_and_generate_sql t a) p.1)) ∧
    (∀ c ∈ a.map ActualRow.name, c ∉ t.map Prod.fst →
      (compare_and_generate_sql t a).drops.count ("DROP COLUMN `" ++ c ++ "`") = 1 ∧
      ¬ namesAdd (compare_and_generate_sql t a) c ∧
      ¬ namesModify (compare_and_generate_sql t a) c) := by
  constructor
  · intro p hp
    have hpbt : btChar ∉ p.1.data := hbt p hp
    constructor
    · intro hnone
      refine ⟨?_, ?_, ?_⟩
      · exact List.count_eq_one_of_mem (adds_nodup hnd hbt) (adds_mem_intro hp hnone)
      · rintro ⟨spec', hin⟩
        obtain ⟨q, hqt, hqname, hqmn⟩ := mem_mods_name hbt hpbt hin
        simp [modNeeded, hqname, hnone] at hqmn
      · intro hdrop
        exact (mem_drops_name hdrop).2 (List.mem_map_of_mem Prod.fst hp)
    · intro hsome
      constructor
      · rintro ⟨spec', hin⟩
        obtain ⟨q, hqt, hqname, hqnone⟩ := mem_adds_name hbt hpbt hin
        rw [hqname] at hqnone
        exact hsome hqnone
      · intro hdrop
        exact (mem_drops_name hdrop).2 (List.mem_map_of_mem Prod.fst hp)
  · intro c hc hnott
    have hcb : btChar ∉ c.data := by
      obtain ⟨r, hr, hrn⟩ := List.mem_map.mp hc
      exact hrn ▸ hba r hr
    refine ⟨?_, ?_, ?_⟩
    · exact List.count_eq_one_of_mem (drops_nodup t a) (drops_mem_intro hc hnott)
    · rintro ⟨spec', hin⟩
      obtain ⟨q, hqt, hqname, _⟩ := mem_adds_name hbt hcb hin
      exact hnott (hqname ▸ List.mem_map_of_mem Prod.fst hqt)
    · rintro ⟨spec', hin⟩
      obtain ⟨q, hqt, hqname, _⟩ := mem_mods_name hbt hcb hin
      exact hnott (hqname ▸ List.mem_map_of_mem Prod.fst hqt)

/-- Witness for C4 at a diff with one add, one checked column and one drop. -/
theorem C4_diff_partition_witness :
    ((wt4.map Prod.fst).Nodup ∧ (∀ p ∈ wt4, btChar ∉ p.1.data) ∧
      (∀ r ∈ wa4, btChar ∉ r.name.data)) ∧
    ((∀ p ∈ wt4,
      (actualLookup wa4 p.1 = none →
        (compare_and_generate_sql wt4 wa4).adds.count ("ADD COLUMN " ++ columnDef p.1 p.2) = 1 ∧
        ¬ namesModify (compare_and_generate_sql wt4 wa4) p.1 ∧
        ¬ namesDrop (compare_and_generate_sql wt4 wa4) p.1) ∧
      (actualLookup wa4 p.1 ≠ none →
        ¬ namesAdd (compare_and_generate_sql wt4 wa4) p.1 ∧
        ¬ namesDrop (compare_and_generate_sql wt4 wa4) p.1)) ∧
    (∀ c ∈ wa4.map ActualRow.name, c ∉ wt4.map Prod.fst →
      (compare_and_generate_sql wt4 wa4).drops.count ("DROP COLUMN `" ++ c ++ "`") = 1 ∧
      ¬ namesAdd (compare_and_generate_sql wt4 wa4) c ∧
      ¬ namesModify (compare_and_generate_sql wt4 wa4) c)) :=
  ⟨⟨by decide, by decide, by decide⟩,
   C4_diff_partition wt4 wa4 (by decide) (by decide) (by decide)⟩
